import Mathlib

/-!
Verification of the Edition lookup routes of `src/api/routes/edition.js`
(bookbrainz-site): the relation-path registry, the entity resolver, the
lookup gate (`makeEntityLoader`), the projection formatters and the four
route bindings, together with the properties the specification states
about them.

The routes file is the source of truth for the relation sets, the
not-found message and the route bindings.  The helpers it imports
(`makeEntityLoader`, the formatters, the alias/identifier/relationship
relation sets) are not part of the provided sources, so they are
modelled from the specification, as noted on each definition.
-/

/-- A JSON-like value, the shape of serialized response bodies. -/
inductive JsonVal where
  | null : JsonVal
  | str (s : String) : JsonVal
  | num (n : Int) : JsonVal
  | boolean (b : Bool) : JsonVal
  | arr (xs : List JsonVal) : JsonVal
  | obj (fields : List (String × JsonVal)) : JsonVal

/-- An alias record: `{name, language, isPrimary}` (spec §3). -/
structure EntityAlias where
  name : String
  language : String
  isPrimary : Bool
deriving DecidableEq, Repr

/-- An external identifier record: `{type, value}` (spec §3). -/
structure Identifier where
  typeName : String
  value : String
deriving DecidableEq, Repr

/-- Minimal descriptor of a relationship endpoint: id plus display name
(spec §4.4, `formatRelationships`). -/
structure EntityDescriptor where
  bbid : String
  name : String
deriving DecidableEq, Repr

/-- A relationship record: `{type, sourceEntity, targetEntity}` (spec §3). -/
structure Relationship where
  typeName : String
  sourceEntity : EntityDescriptor
  targetEntity : EntityDescriptor
deriving DecidableEq, Repr

/-- An Edition entity as it lives in the store: scalar attributes plus all
of its navigable relations, before any projection. -/
structure StoredEntity where
  bbid : String
  defaultAlias : Option EntityAlias
  languages : List String
  disambiguation : Option String
  editionFormat : Option String
  editionStatus : Option String
  releaseEvents : List String
  aliases : List EntityAlias
  identifiers : List Identifier
  relationships : List Relationship
deriving DecidableEq, Repr

/-- A resolved entity: scalar attributes always populated, and each
relation present (`some`) exactly when its relation path was requested by
the `RelationPathSet` used to fetch it (spec §3, ResolvedEntity).  The
outer `Option` on each relation field records whether the resolver
populated it at all; the inner value is the relation's data. -/
structure ResolvedEntity where
  bbid : String
  defaultAlias : Option (Option EntityAlias)
  languages : Option (List String)
  disambiguation : Option (Option String)
  editionFormat : Option (Option String)
  editionStatus : Option (Option String)
  releaseEvents : Option (List String)
  aliases : Option (List EntityAlias)
  identifiers : Option (List Identifier)
  relationships : Option (List Relationship)
deriving DecidableEq, Repr

/-- The relation paths an Edition supports, in a fixed enumeration order:
the six paths of `editionBasicRelations` first, then the alias,
identifier and relationship set paths. -/
def editionRelationPaths : List String :=
  ["defaultAlias.language", "languageSet.languages", "disambiguation",
   "editionFormat", "editionStatus", "releaseEventSet.releaseEvents",
   "aliasSet.aliases", "identifierSet.identifiers",
   "relationshipSet.relationships"]

/-- The relation paths a resolved entity actually carries populated. -/
def populatedPaths (e : ResolvedEntity) : List String :=
  (if e.defaultAlias.isSome then ["defaultAlias.language"] else []) ++
  (if e.languages.isSome then ["languageSet.languages"] else []) ++
  (if e.disambiguation.isSome then ["disambiguation"] else []) ++
  (if e.editionFormat.isSome then ["editionFormat"] else []) ++
  (if e.editionStatus.isSome then ["editionStatus"] else []) ++
  (if e.releaseEvents.isSome then ["releaseEventSet.releaseEvents"] else []) ++
  (if e.aliases.isSome then ["aliasSet.aliases"] else []) ++
  (if e.identifiers.isSome then ["identifierSet.identifiers"] else []) ++
  (if e.relationships.isSome then ["relationshipSet.relationships"] else [])

/-- Modelled from the spec: the Entity Resolver's relation projection
(spec §4.2) — the implementation lives outside the provided sources.
Given a stored entity and a `RelationPathSet`, it returns a
`ResolvedEntity` with exactly the requested relations populated (no
more, no fewer) and scalar attributes always populated. -/
def projectRelations (s : StoredEntity) (rels : List String) : ResolvedEntity where
  bbid := s.bbid
  defaultAlias :=
    if rels.contains "defaultAlias.language" then some s.defaultAlias else none
  languages :=
    if rels.contains "languageSet.languages" then some s.languages else none
  disambiguation :=
    if rels.contains "disambiguation" then some s.disambiguation else none
  editionFormat :=
    if rels.contains "editionFormat" then some s.editionFormat else none
  editionStatus :=
    if rels.contains "editionStatus" then some s.editionStatus else none
  releaseEvents :=
    if rels.contains "releaseEventSet.releaseEvents" then some s.releaseEvents else none
  aliases :=
    if rels.contains "aliasSet.aliases" then some s.aliases else none
  identifiers :=
    if rels.contains "identifierSet.identifiers" then some s.identifiers else none
  relationships :=
    if rels.contains "relationshipSet.relationships" then some s.relationships else none

/-- A store access for the Edition kind: either a transport/store-level
failure (`Except.error`), or a successful read returning the entity when
the id exists and `none` when it does not (spec §4.2, Failure). -/
def Store : Type := String → Except String (Option StoredEntity)

/-- Modelled from the spec: `resolve(entityKind, id, relationPathSet)`
(spec §4.2) — the Entity Resolver is not part of the provided sources.
Performs one store read; a store failure propagates unchanged, an
existing entity is returned with exactly the requested relations
populated, and a missing id yields `none` (the NotFound signal). -/
def resolve (store : Store) (bbid : String) (rels : List String) :
    Except String (Option ResolvedEntity) :=
  match store bbid with
  | .error e => .error e
  | .ok none => .ok none
  | .ok (some s) => .ok (some (projectRelations s rels))

/-! ## Relation path registry -/

/-- `editionBasicRelations` from `edition.js` (lines 28–35): the relation
paths the basic-info route requests. -/
def editionBasicRelations : List String :=
  ["defaultAlias.language",
   "languageSet.languages",
   "disambiguation",
   "editionFormat",
   "editionStatus",
   "releaseEventSet.releaseEvents"]

/-- Modelled from the spec: `aliasesRelation`, the named
`RelationPathSet` used to render aliases (spec §4.1) — it is imported
from `../helpers/utils`, which is not part of the provided sources. -/
def aliasesRelation : List String := ["aliasSet.aliases"]

/-- Modelled from the spec: `identifiersRelation`, the named
`RelationPathSet` used to render identifiers (spec §4.1) — imported from
`../helpers/utils`, not part of the provided sources. -/
def identifiersRelation : List String := ["identifierSet.identifiers"]

/-- Modelled from the spec: `relationshipsRelation`, the named
`RelationPathSet` used to render relationships (spec §4.1) — imported
from `../helpers/utils`, not part of the provided sources. -/
def relationshipsRelation : List String := ["relationshipSet.relationships"]

/-- `editionError` from `edition.js` (line 37): the configured not-found
message shared by all four Edition route bindings. -/
def editionError : String := "Edition not found"

/-! ## Projection formatters (spec §4.4; implemented in
`../helpers/formatEntityData`, not part of the provided sources) -/

/-- The BasicInfo projection: the fields of the basic-info response body. -/
structure BasicInfo where
  bbid : String
  defaultAlias : Option EntityAlias
  disambiguation : Option String
  editionFormat : Option String
  languages : List String
  status : Option String
deriving DecidableEq, Repr

/-- Modelled from the spec: `getEditionBasicInfo` (`formatBasicInfo`,
spec §4.4) — not part of the provided sources.  Extracts the scalar
attributes and the default-alias/disambiguation/format/status/language
summary, degrading to a defined placeholder (`none`) when an optional
sub-relation is absent; unrequested relations are treated as absent. -/
def getEditionBasicInfo (e : ResolvedEntity) : BasicInfo where
  bbid := e.bbid
  defaultAlias := e.defaultAlias.join
  disambiguation := e.disambiguation.join
  editionFormat := e.editionFormat.join
  languages := e.languages.getD []
  status := e.editionStatus.join

/-- Modelled from the spec: `getEntityAliases` (`formatAliases`, spec
§4.4) — not part of the provided sources.  Flattens the alias relation
into an ordered sequence, preserving store order; no aliases yields an
empty sequence. -/
def getEntityAliases (e : ResolvedEntity) : List EntityAlias :=
  e.aliases.getD []

/-- Modelled from the spec: `getEntityIdentifiers` (`formatIdentifiers`,
spec §4.4) — not part of the provided sources. -/
def getEntityIdentifiers (e : ResolvedEntity) : List Identifier :=
  e.identifiers.getD []

/-- Modelled from the spec: `getEntityRelationships`
(`formatRelationships`, spec §4.4) — not part of the provided sources.
Each entry carries both endpoints' minimal descriptors. -/
def getEntityRelationships (e : ResolvedEntity) : List Relationship :=
  e.relationships.getD []

/-! ## Serialization of the projections to JSON bodies -/

def optStr : Option String → JsonVal
  | none => JsonVal.null
  | some s => JsonVal.str s

def aliasToJson (a : EntityAlias) : JsonVal :=
  JsonVal.obj [("name", JsonVal.str a.name),
               ("language", JsonVal.str a.language),
               ("isPrimary", JsonVal.boolean a.isPrimary)]

def identifierToJson (i : Identifier) : JsonVal :=
  JsonVal.obj [("type", JsonVal.str i.typeName),
               ("value", JsonVal.str i.value)]

def descriptorToJson (d : EntityDescriptor) : JsonVal :=
  JsonVal.obj [("bbid", JsonVal.str d.bbid), ("name", JsonVal.str d.name)]

def relationshipToJson (r : Relationship) : JsonVal :=
  JsonVal.obj [("type", JsonVal.str r.typeName),
               ("sourceEntity", descriptorToJson r.sourceEntity),
               ("targetEntity", descriptorToJson r.targetEntity)]

def basicInfoToJson (b : BasicInfo) : JsonVal :=
  JsonVal.obj [("bbid", JsonVal.str b.bbid),
               ("defaultAlias", (b.defaultAlias.map aliasToJson).getD JsonVal.null),
               ("disambiguation", optStr b.disambiguation),
               ("editionFormat", optStr b.editionFormat),
               ("languages", JsonVal.arr (b.languages.map JsonVal.str)),
               ("status", optStr b.status)]

/-- The four formatters named by the Edition route bindings in
`edition.js`. -/
inductive Formatter where
  | editionBasicInfo : Formatter
  | entityAliases : Formatter
  | entityIdentifiers : Formatter
  | entityRelationships : Formatter
deriving DecidableEq, Repr

/-- Dispatch a formatter and serialize its projection, as the success
handlers do before sending (`res.send(...)`). -/
def applyFormatter : Formatter → ResolvedEntity → JsonVal
  | .editionBasicInfo, e => basicInfoToJson (getEditionBasicInfo e)
  | .entityAliases, e => JsonVal.arr ((getEntityAliases e).map aliasToJson)
  | .entityIdentifiers, e => JsonVal.arr ((getEntityIdentifiers e).map identifierToJson)
  | .entityRelationships, e => JsonVal.arr ((getEntityRelationships e).map relationshipToJson)

/-- Modelled from the spec: the `RelationPathSet` each formatter assumes
was used to resolve its input (spec §4.4, formatter/relation-set
pairing). -/
def requiredRelations : Formatter → List String
  | .editionBasicInfo => editionBasicRelations
  | .entityAliases => aliasesRelation
  | .entityIdentifiers => identifiersRelation
  | .entityRelationships => relationshipsRelation

/-! ## Lookup gate and route pipeline -/

/-- Outcome of the lookup gate on one request: either the pipeline
continues with the resolved entity attached to the request-scoped
context (`res.locals.entity`), or it halts with a status and body, or a
store failure escaped it. -/
inductive GateOutcome where
  | proceed (entity : ResolvedEntity) : GateOutcome
  | halt (status : Nat) (body : JsonVal) : GateOutcome
  | failed (err : String) : GateOutcome

/-- Modelled from the spec: `makeEntityLoader` from
`../helpers/entityLoader` (spec §4.3, Lookup Gate) — not part of the
provided sources.  It extracts the id from the request, calls the
resolver, attaches the resolved entity to the request-scoped context on
success, terminates with a 404 carrying the supplied message on
absence, and does not catch store-level failures. -/
def makeEntityLoader (store : Store) (rels : List String) (message : String)
    (bbid : String) : GateOutcome :=
  match resolve store bbid rels with
  | .error e => .failed e
  | .ok none => .halt 404 (JsonVal.obj [("message", JsonVal.str message)])
  | .ok (some entity) => .proceed entity

/-- What a success handler does with one request: send a response, hand
an error to the error-handling chain via `next(err)`, or let an awaited
rejection escape uncaught. -/
inductive HandlerOutcome where
  | responded (status : Nat) (body : JsonVal) : HandlerOutcome
  | calledNext (err : String) : HandlerOutcome
  | uncaughtRejection (err : String) : HandlerOutcome

/-- A request as the handlers see it: the `bbid` path parameter plus the
rest of the request's fields (headers, query string, …), which the
Edition handlers never read. -/
structure Request where
  bbid : String
  otherFields : List (String × String)
deriving DecidableEq, Repr

/-- The success handler shape shared by all four routes of `edition.js`
(lines 121–124, 154–157, 187–190, 220–223):
`async (req, res, next) => res.status(200).send(await formatter(res.locals.entity))`.
The formatter's promise is modelled as an `Except`; the handler has no
`try`/`catch` and never passes an error to `next`, so a rejection
escapes the `async` function uncaught. -/
def successHandler (formatter : ResolvedEntity → Except String JsonVal)
    (req : Request) (entity : ResolvedEntity) : HandlerOutcome :=
  match formatter entity with
  | .ok body => .responded 200 body
  | .error e => .uncaughtRejection e

/-- A route binding of `edition.js`: the path suffix after `/:bbid`, the
`RelationPathSet` handed to `makeEntityLoader`, the configured not-found
message, and the formatter the success handler awaits. -/
structure RouteBinding where
  pathSuffix : String
  relations : List String
  errorMessage : String
  formatter : Formatter
deriving DecidableEq, Repr

/-- The four route bindings declared in `edition.js` (lines 119–124,
152–157, 185–190, 218–223). -/
def editionRoutes : List RouteBinding :=
  [{ pathSuffix := "", relations := editionBasicRelations,
     errorMessage := editionError, formatter := .editionBasicInfo },
   { pathSuffix := "/aliases", relations := aliasesRelation,
     errorMessage := editionError, formatter := .entityAliases },
   { pathSuffix := "/identifiers", relations := identifiersRelation,
     errorMessage := editionError, formatter := .entityIdentifiers },
   { pathSuffix := "/relationships", relations := relationshipsRelation,
     errorMessage := editionError, formatter := .entityRelationships }]

/-- Overall result of dispatching one request through a route: a
serialized response, or a failure escaping to the generic boundary. -/
inductive RouteResult where
  | response (status : Nat) (body : JsonVal) : RouteResult
  | storeFailure (err : String) : RouteResult
  | handlerFailure (err : String) : RouteResult

/-- Run one route of `edition.js` on a request, but with an arbitrary
success handler in place of the one the route declares: the gate runs
first and the handler only sees the entity the gate attached. -/
def runRouteWith (store : Store) (b : RouteBinding)
    (handler : Request → ResolvedEntity → HandlerOutcome)
    (req : Request) : RouteResult :=
  match makeEntityLoader store b.relations b.errorMessage req.bbid with
  | .failed e => .storeFailure e
  | .halt status body => .response status body
  | .proceed entity =>
      match handler req entity with
      | .responded status body => .response status body
      | .calledNext e => .handlerFailure e
      | .uncaughtRejection e => .handlerFailure e

/-- Run one route of `edition.js` end to end with its own success
handler, whose awaited formatter resolves to the serialized projection. -/
def runRoute (store : Store) (b : RouteBinding) (req : Request) : RouteResult :=
  runRouteWith store b
    (successHandler (fun e => .ok (applyFormatter b.formatter e))) req

/-- The `/edition/:bbid` binding (`edition.js` lines 119–124). -/
def editionBasicRoute : RouteBinding where
  pathSuffix := ""
  relations := editionBasicRelations
  errorMessage := editionError
  formatter := .editionBasicInfo

/-- The `/edition/:bbid/aliases` binding (`edition.js` lines 152–157). -/
def editionAliasesRoute : RouteBinding where
  pathSuffix := "/aliases"
  relations := aliasesRelation
  errorMessage := editionError
  formatter := .entityAliases

/-- The `/edition/:bbid/identifiers` binding (`edition.js` lines
185–190). -/
def editionIdentifiersRoute : RouteBinding where
  pathSuffix := "/identifiers"
  relations := identifiersRelation
  errorMessage := editionError
  formatter := .entityIdentifiers

/-- The `/edition/:bbid/relationships` binding (`edition.js` lines
218–223). -/
def editionRelationshipsRoute : RouteBinding where
  pathSuffix := "/relationships"
  relations := relationshipsRelation
  errorMessage := editionError
  formatter := .entityRelationships

theorem editionRoutes_eq :
    editionRoutes = [editionBasicRoute, editionAliasesRoute,
      editionIdentifiersRoute, editionRelationshipsRoute] := rfl

/-- A store with no entities at all, used to exercise the not-found
branch on concrete inputs. -/
def emptyStore : Store := fun _ => .ok none

/-- A sample stored Edition used to exercise the found branch on
concrete inputs. -/
def sampleEdition : StoredEntity where
  bbid := "96a23368-85a1-4559-b3df-16833893d861"
  defaultAlias := some { name := "A Study in Scarlet", language := "English", isPrimary := true }
  languages := ["English"]
  disambiguation := some "first edition"
  editionFormat := some "eBook"
  editionStatus := some "Official"
  releaseEvents := ["1887-01-01"]
  aliases := [{ name := "A Study in Scarlet", language := "English", isPrimary := true }]
  identifiers := [{ typeName := "ISBN-13", value := "9780000000000" }]
  relationships := []

/-- A store holding exactly `sampleEdition` under its bbid. -/
def sampleStore : Store := fun bbid =>
  if bbid = sampleEdition.bbid then .ok (some sampleEdition) else .ok none

/-! ## Claim theorems -/

/-- C1: for any bbid that does not resolve to an existing Edition, every
one of the four route bindings terminates at the lookup gate with a 404
whose body carries the binding's configured message — the single string
"Edition not found" for all four — and the success handler is never
invoked: the route's result is the same 404 whatever handler follows the
gate. -/
theorem c1_unknown_bbid_yields_404 (store : Store) (req : Request)
    (h : store req.bbid = .ok none) :
    ∀ b ∈ editionRoutes,
      b.errorMessage = "Edition not found" ∧
      makeEntityLoader store b.relations b.errorMessage req.bbid =
        .halt 404 (JsonVal.obj [("message", JsonVal.str "Edition not found")]) ∧
      ∀ handler, runRouteWith store b handler req =
        .response 404 (JsonVal.obj [("message", JsonVal.str "Edition not found")]) := by
  intro b hb
  have hmsg : b.errorMessage = "Edition not found" := by
    rw [editionRoutes_eq] at hb
    simp only [List.mem_cons, List.not_mem_nil, or_false] at hb
    rcases hb with h1 | h1 | h1 | h1 <;> subst h1 <;> rfl
  refine ⟨hmsg, ?_, ?_⟩
  · simp [makeEntityLoader, resolve, h, hmsg]
  · intro handler
    simp [runRouteWith, makeEntityLoader, resolve, h, hmsg]

/-- C1 witness: on the empty store, the basic route answers a concrete
request with the 404 Edition-not-found body, independently of the
handler that would have run after the gate. -/
theorem c1_unknown_bbid_yields_404_witness :
    runRouteWith emptyStore editionBasicRoute
      (successHandler (fun e => .ok (applyFormatter Formatter.editionBasicInfo e)))
      { bbid := "deadbeef", otherFields := [] } =
      .response 404 (JsonVal.obj [("message", JsonVal.str "Edition not found")]) :=
  (c1_unknown_bbid_yields_404 emptyStore { bbid := "deadbeef", otherFields := [] }
      rfl editionBasicRoute (by rw [editionRoutes_eq]; simp)).2.2 _

/-- C2: for every bbid identifying an existing Edition, the lookup gate
attaches the resolved entity to the request-scoped context and
`GET /edition/:bbid` responds 200 with the basic-info projection of that
entity — a body carrying its bbid, defaultAlias, disambiguation,
editionFormat, languages and status fields, drawn from the store's data. -/
theorem c2_existing_bbid_basic_info (store : Store) (req : Request)
    (s : StoredEntity) (h : store req.bbid = .ok (some s)) :
    makeEntityLoader store editionBasicRelations editionError req.bbid =
      .proceed (projectRelations s editionBasicRelations) ∧
    runRoute store editionBasicRoute req =
      .response 200 (JsonVal.obj
        [("bbid", JsonVal.str s.bbid),
         ("defaultAlias", (s.defaultAlias.map aliasToJson).getD JsonVal.null),
         ("disambiguation", optStr s.disambiguation),
         ("editionFormat", optStr s.editionFormat),
         ("languages", JsonVal.arr (s.languages.map JsonVal.str)),
         ("status", optStr s.editionStatus)]) := by
  constructor
  · simp [makeEntityLoader, resolve, h]
  · simp [runRoute, runRouteWith, makeEntityLoader, resolve, h, editionBasicRoute,
      successHandler, applyFormatter, basicInfoToJson, getEditionBasicInfo,
      projectRelations, editionBasicRelations, optStr]

/-- C2 witness: the sample store answers the basic route at the sample
Edition's bbid with a 200 carrying that entity's fields. -/
theorem c2_existing_bbid_basic_info_witness :
    runRoute sampleStore editionBasicRoute
      { bbid := "96a23368-85a1-4559-b3df-16833893d861", otherFields := [] } =
      .response 200 (JsonVal.obj
        [("bbid", JsonVal.str sampleEdition.bbid),
         ("defaultAlias", (sampleEdition.defaultAlias.map aliasToJson).getD JsonVal.null),
         ("disambiguation", optStr sampleEdition.disambiguation),
         ("editionFormat", optStr sampleEdition.editionFormat),
         ("languages", JsonVal.arr (sampleEdition.languages.map JsonVal.str)),
         ("status", optStr sampleEdition.editionStatus)]) :=
  (c2_existing_bbid_basic_info sampleStore
      { bbid := "96a23368-85a1-4559-b3df-16833893d861", otherFields := [] }
      sampleEdition (by simp [sampleStore, sampleEdition])).2

/-- C3: every route binding pairs a formatter with its matching
`RelationPathSet` — basic with `editionBasicRelations` and
`getEditionBasicInfo`, aliases with `aliasesRelation` and
`getEntityAliases`, identifiers with `identifiersRelation` and
`getEntityIdentifiers`, relationships with `relationshipsRelation` and
`getEntityRelationships` — and no binding resolves with one set while
formatting with another's formatter. -/
theorem c3_formatter_relation_pairing :
    (∀ b ∈ editionRoutes, b.relations = requiredRelations b.formatter) ∧
    editionRoutes.map RouteBinding.formatter =
      [.editionBasicInfo, .entityAliases, .entityIdentifiers, .entityRelationships] ∧
    editionRoutes.map RouteBinding.relations =
      [editionBasicRelations, aliasesRelation, identifiersRelation,
       relationshipsRelation] := by
  refine ⟨?_, rfl, rfl⟩
  intro b hb
  rw [editionRoutes_eq] at hb
  simp only [List.mem_cons, List.not_mem_nil, or_false] at hb
  rcases hb with h1 | h1 | h1 | h1 <;> subst h1 <;> rfl

/-- C4: for every bbid with an existing Edition, resolving it with
`editionBasicRelations` yields a resolved entity whose populated
relations are exactly the six basic paths — no extras, none omitted —
with the scalar attributes populated. -/
theorem c4_basic_relations_exact (store : Store) (bbid : String)
    (s : StoredEntity) (h : store bbid = .ok (some s)) :
    resolve store bbid editionBasicRelations =
      .ok (some (projectRelations s editionBasicRelations)) ∧
    populatedPaths (projectRelations s editionBasicRelations) =
      editionBasicRelations ∧
    (projectRelations s editionBasicRelations).bbid = s.bbid := by
  refine ⟨?_, rfl, rfl⟩
  simp [resolve, h]

/-- C4 witness: resolving the sample Edition's bbid with the basic
relation set populates exactly the six basic paths. -/
theorem c4_basic_relations_exact_witness :
    populatedPaths (projectRelations sampleEdition editionBasicRelations) =
      editionBasicRelations :=
  (c4_basic_relations_exact sampleStore sampleEdition.bbid sampleEdition
      (by simp [sampleStore])).2.1

/-- C5: when an entity's defaultAlias relation is absent, the basic-info
formatter is total and puts the defined placeholder (`none`, serialized
as JSON null) in the alias field, and `GET /edition/:bbid` still
responds 200 for such an entity. -/
theorem c5_absent_default_alias_placeholder (store : Store) (req : Request)
    (s : StoredEntity) (h : store req.bbid = .ok (some s))
    (ha : s.defaultAlias = none) :
    (getEditionBasicInfo (projectRelations s editionBasicRelations)).defaultAlias
      = none ∧
    basicInfoToJson (getEditionBasicInfo (projectRelations s editionBasicRelations))
      = JsonVal.obj
        [("bbid", JsonVal.str s.bbid),
         ("defaultAlias", JsonVal.null),
         ("disambiguation", optStr s.disambiguation),
         ("editionFormat", optStr s.editionFormat),
         ("languages", JsonVal.arr (s.languages.map JsonVal.str)),
         ("status", optStr s.editionStatus)] ∧
    runRoute store editionBasicRoute req =
      .response 200 (basicInfoToJson
        (getEditionBasicInfo (projectRelations s editionBasicRelations))) := by
  refine ⟨?_, ?_, ?_⟩
  · simp [getEditionBasicInfo, projectRelations, ha]
  · simp [basicInfoToJson, getEditionBasicInfo, projectRelations, ha,
      editionBasicRelations]
  · simp [runRoute, runRouteWith, makeEntityLoader, resolve, h, editionBasicRoute,
      successHandler, applyFormatter]

/-- An Edition with no default alias and no aliases, for the C5 and C6
witnesses. -/
def bareEdition : StoredEntity where
  bbid := "11111111-2222-3333-4444-555555555555"
  defaultAlias := none
  languages := []
  disambiguation := none
  editionFormat := none
  editionStatus := none
  releaseEvents := []
  aliases := []
  identifiers := []
  relationships := []

/-- A store holding exactly `bareEdition` under its bbid. -/
def bareStore : Store := fun bbid =>
  if bbid = bareEdition.bbid then .ok (some bareEdition) else .ok none

/-- C5 witness: the alias-less sample Edition formats with a null
defaultAlias and the basic route answers 200. -/
theorem c5_absent_default_alias_placeholder_witness :
    (getEditionBasicInfo (projectRelations bareEdition editionBasicRelations)).defaultAlias
      = none ∧
    runRoute bareStore editionBasicRoute
      { bbid := bareEdition.bbid, otherFields := [] } =
      .response 200 (basicInfoToJson
        (getEditionBasicInfo (projectRelations bareEdition editionBasicRelations))) :=
  ⟨(c5_absent_default_alias_placeholder bareStore
      { bbid := bareEdition.bbid, otherFields := [] } bareEdition
      (by simp [bareStore]) rfl).1,
   (c5_absent_default_alias_placeholder bareStore
      { bbid := bareEdition.bbid, otherFields := [] } bareEdition
      (by simp [bareStore]) rfl).2.2⟩

/-- C6: the aliases formatter on an entity with zero aliases returns the
empty sequence — not `none` and not an error — and
`GET /edition/:bbid/aliases` on an existing alias-less Edition responds
200 with an empty list. -/
theorem c6_zero_aliases_empty_list (store : Store) (req : Request)
    (s : StoredEntity) (h : store req.bbid = .ok (some s))
    (ha : s.aliases = []) :
    getEntityAliases (projectRelations s aliasesRelation) = [] ∧
    runRoute store editionAliasesRoute req = .response 200 (JsonVal.arr []) := by
  constructor
  · simp [getEntityAliases, projectRelations, ha, aliasesRelation]
  · simp [runRoute, runRouteWith, makeEntityLoader, resolve, h,
      editionAliasesRoute, successHandler, applyFormatter, getEntityAliases,
      projectRelations, ha, aliasesRelation]

/-- C6 witness: the alias-less sample Edition's aliases route answers
200 with an empty list. -/
theorem c6_zero_aliases_empty_list_witness :
    runRoute bareStore editionAliasesRoute
      { bbid := bareEdition.bbid, otherFields := [] } =
      .response 200 (JsonVal.arr []) :=
  (c6_zero_aliases_empty_list bareStore
      { bbid := bareEdition.bbid, otherFields := [] } bareEdition
      (by simp [bareStore]) rfl).2

/-- One invocation of a formatter: the output it produces together with
the entity as it stands after the call (the pure projection leaves the
entity untouched). -/
def invokeFormatter (f : Formatter) (e : ResolvedEntity) :
    JsonVal × ResolvedEntity :=
  (applyFormatter f e, e)

/-- C7: every formatter is deterministic and side-effect-free — invoking
the same formatter a second time, on the entity as left by the first
invocation, yields the same output, and neither invocation mutates the
entity. -/
theorem c7_formatter_purity (f : Formatter) (e : ResolvedEntity) :
    (invokeFormatter f e).1 = (invokeFormatter f (invokeFormatter f e).2).1 ∧
    (invokeFormatter f (invokeFormatter f e).2).2 = e :=
  ⟨rfl, rfl⟩

/-- C8: a store-level failure is not caught by the lookup gate on any of
the four routes: it propagates past the gate as an outcome distinct from
NotFound and is never coerced into the 404 response. -/
theorem c8_store_failure_propagates (store : Store) (req : Request)
    (err : String) (h : store req.bbid = .error err) :
    ∀ b ∈ editionRoutes,
      makeEntityLoader store b.relations b.errorMessage req.bbid = .failed err ∧
      runRoute store b req = .storeFailure err ∧
      ∀ status body, runRoute store b req ≠ .response status body := by
  intro b hb
  have hgate : makeEntityLoader store b.relations b.errorMessage req.bbid
      = .failed err := by
    simp [makeEntityLoader, resolve, h]
  have hrun : runRoute store b req = .storeFailure err := by
    simp [runRoute, runRouteWith, hgate]
  exact ⟨hgate, hrun, by simp [hrun]⟩

/-- A store whose every access fails with a connection error. -/
def failingStore : Store := fun _ => .error "connection reset"

/-- C8 witness: with a failing store, the identifiers route surfaces the
store failure rather than a 404. -/
theorem c8_store_failure_propagates_witness :
    runRoute failingStore editionIdentifiersRoute
      { bbid := "deadbeef", otherFields := [] } =
      .storeFailure "connection reset" :=
  (c8_store_failure_propagates failingStore
      { bbid := "deadbeef", otherFields := [] } "connection reset" rfl
      editionIdentifiersRoute (by rw [editionRoutes_eq]; simp)).2.1

/-- C9: the success handlers have no error branch — when the awaited
formatter rejects, the handler neither catches the rejection nor passes
the error to `next`, so the rejection escapes the handler uncaught and
is never forwarded to the error-handling chain. -/
theorem c9_no_error_branch (formatter : ResolvedEntity → Except String JsonVal)
    (req : Request) (e : ResolvedEntity) (err : String)
    (h : formatter e = .error err) :
    successHandler formatter req e = .uncaughtRejection err ∧
    ∀ x, successHandler formatter req e ≠ .calledNext x := by
  have hout : successHandler formatter req e = .uncaughtRejection err := by
    simp [successHandler, h]
  exact ⟨hout, by simp [hout]⟩

/-- C9 witness: a formatter that rejects makes the handler surface an
uncaught rejection, not a `next(err)` call. -/
theorem c9_no_error_branch_witness :
    successHandler (fun _ => .error "projection failed")
      { bbid := "deadbeef", otherFields := [] }
      (projectRelations bareEdition editionBasicRelations) =
      .uncaughtRejection "projection failed" :=
  (c9_no_error_branch (fun _ => .error "projection failed")
      { bbid := "deadbeef", otherFields := [] }
      (projectRelations bareEdition editionBasicRelations)
      "projection failed" rfl).1

/-- C10: a success handler reads only the entity attached to
`res.locals`: for any two requests carrying equal attached entities, the
handler produces identical outcomes, whatever the bbid path parameter or
any other request field. -/
theorem c10_handler_reads_only_entity
    (formatter : ResolvedEntity → Except String JsonVal)
    (req1 req2 : Request) (e : ResolvedEntity) :
    successHandler formatter req1 e = successHandler formatter req2 e :=
  rfl
